import Mathlib

/-
Verification of the kiyo_bot background-orchestration core against its
natural-language specification.

The repository has two generations of code.  The live one is reached from
src/main.py via bot/client.py: services/notion_service.py (store client and
task operations), tasks/scheduler.py (recurring jobs and reminder passes),
tasks/initiate_checker.py (proactive-outreach monitor), utils/helpers.py
(time and date parsing) and utils/activity_tracker.py (shared last-active
timestamp).  The older top-level modules (notion_utils.py, scheduler.py,
initiate_checker.py, ...) are dead code; notion_utils.py cannot even be
loaded (its reset_daily_todos has an unclosed parenthesis, a SyntaxError
at line 584), so every legacy module depending on it is unusable.  Definitions
below therefore embed the live modules and, where a claim also cites a
legacy file, the legacy function is embedded separately when it is
syntactically valid.

Conventions of the embedding:
- timestamps and datetimes are minutes since an arbitrary epoch (Nat);
  a time of day is a TimeHM record; calendar days for date arithmetic are
  Int day numbers with day 0 a Monday, weekday d = d % 7 (Monday = 0),
  matching Python date.weekday();
- Python exceptions are modeled as explicit error values; an exception
  escaping a function is a distinguished constructor of its result type;
- the remote Notion store is a list of task records; a query response is
  the filtered list served in pages addressed by cursors.
-/

namespace KiyoSpec

/-! ## Time-of-day values and utils.helpers.parse_time_string -/

/-- A wall-clock time of day, hour and minute, as produced by
datetime.time in the source (seconds are always zero there). -/
structure TimeHM where
  hour : Nat
  minute : Nat
deriving Repr, DecidableEq

def TimeHM.toMinutes (t : TimeHM) : Nat := t.hour * 60 + t.minute

/-- Decimal value of an ASCII digit character, none otherwise.  The source
regexes use the digit class; non-ASCII digits are out of scope of the
inputs considered. -/
def charDigit? (c : Char) : Option Nat :=
  if c = '0' then some 0
  else if c = '1' then some 1
  else if c = '2' then some 2
  else if c = '3' then some 3
  else if c = '4' then some 4
  else if c = '5' then some 5
  else if c = '6' then some 6
  else if c = '7' then some 7
  else if c = '8' then some 8
  else if c = '9' then some 9
  else none

def isSpaceChar (c : Char) : Bool :=
  c = ' ' || c = '\t' || c = '\n' || c = '\r'

/-- Python str.strip(): drop leading and trailing whitespace. -/
def stripChars (cs : List Char) : List Char :=
  ((cs.dropWhile isSpaceChar).reverse.dropWhile isSpaceChar).reverse

/-- The minute part of strptime with format HH:MM.  CPython compiles the
M directive to the regex alternation [0-5][0-9] | [0-9], matched greedily
and in that order; afterwards strptime requires the whole string to be
consumed (otherwise: unconverted data remains, a ValueError).  Both
failure modes surface as the same ValueError in the callers, hence a
single none here. -/
def parseMinuteTail (h : Nat) : List Char → Option TimeHM
  | [] => none
  | [c] => (charDigit? c).map fun d => ⟨h, d⟩
  | c1 :: c2 :: tail =>
    match charDigit? c1, charDigit? c2 with
    | some d1, some d2 =>
      if d1 ≤ 5 then
        if tail.isEmpty then some ⟨h, d1 * 10 + d2⟩ else none
      else none
    | some _, none => none
    | none, _ => none

/-- Two-digit-hour case of strptime: the H directive alternations
2[0-3] | [01][0-9] together accept a two-digit hour exactly when it is at
most 23. -/
def strptimeTwoDigit (c1 c2 : Char) (rest2 : List Char) : Option TimeHM :=
  match charDigit? c1, charDigit? c2 with
  | some d1, some d2 =>
    if d1 * 10 + d2 ≤ 23 then parseMinuteTail (d1 * 10 + d2) rest2 else none
  | some _, none => none
  | none, _ => none

/-- Continuation of strptime when the second character is not the colon:
the third character must be the colon and the first two a valid two-digit
hour. -/
def strptimeAfterTwo (c1 c2 : Char) : List Char → Option TimeHM
  | [] => none
  | c3 :: rest2 => if c3 = ':' then strptimeTwoDigit c1 c2 rest2 else none

/-- datetime.strptime(s, "%H:%M").time(): the H directive is the regex
alternation 2[0-3] | [01][0-9] | [0-9], then a literal colon, then the
minute directive, then end of input.  A one-digit hour applies when the
second character is the colon; a two-digit hour needs the third character
to be the colon. -/
def strptimeHM : List Char → Option TimeHM
  | c1 :: c2 :: rest =>
    if c2 = ':' then (charDigit? c1).bind fun d => parseMinuteTail d rest
    else strptimeAfterTwo c1 c2 rest
  | _ => none

/-- One-or-two-digit greedy number, a prefix match (trailing characters
allowed), as each capture group of the fallback regex
(\d{1,2}):(\d{1,2}) behaves. -/
def grabTwoDigits : List Char → Option Nat
  | [] => none
  | c1 :: rest =>
    (charDigit? c1).map fun d1 =>
      match rest with
      | [] => d1
      | c2 :: _ =>
        match charDigit? c2 with
        | some d2 => d1 * 10 + d2
        | none => d1

/-- Two-digit-hour case of the fallback regex. -/
def fallbackTwoDigit (c1 c2 : Char) (rest2 : List Char) : Option (Nat × Nat) :=
  match charDigit? c1, charDigit? c2 with
  | some d1, some d2 => (grabTwoDigits rest2).map fun m => (d1 * 10 + d2, m)
  | some _, none => none
  | none, _ => none

/-- Continuation of the fallback regex when the second character is not
the colon. -/
def fallbackAfterTwo (c1 c2 : Char) : List Char → Option (Nat × Nat)
  | [] => none
  | c3 :: rest2 => if c3 = ':' then fallbackTwoDigit c1 c2 rest2 else none

/-- re.match of (\d{1,2}):(\d{1,2}): anchored at the start, prefix match,
greedy with backtracking.  A two-digit first group can only be followed by
the colon, so backtracking to one digit succeeds only when the second
character is itself the colon. -/
def fallbackHM : List Char → Option (Nat × Nat)
  | c1 :: c2 :: rest =>
    if c2 = ':' then
      (charDigit? c1).bind fun d1 => (grabTwoDigits rest).map fun m => (d1, m)
    else fallbackAfterTwo c1 c2 rest
  | _ => none

/-- utils/helpers.py lines 13-43, parse_time_string: empty (falsy) input
returns None; otherwise strptime with format HH:MM on the stripped string;
on ValueError a fallback regex (\d{1,2}):(\d{1,2}) with an explicit bounds
check 0 <= hour <= 23 and 0 <= minute <= 59; anything else returns None.
All exception paths are caught, so the Option result is the whole
behavior. -/
def parse_time_string (s : String) : Option TimeHM :=
  if s.isEmpty then none
  else
    match strptimeHM (stripChars s.data) with
    | some t => some t
    | none =>
      match fallbackHM (stripChars s.data) with
      | some (h, m) => if h ≤ 23 ∧ m ≤ 59 then some ⟨h, m⟩ else none
      | none => none

/-- notion_utils.py lines 88-92 (the legacy module): strptime only, None
on ValueError, no falsy pre-check and no fallback regex. -/
def parse_time_string_legacy (s : String) : Option TimeHM :=
  strptimeHM (stripChars s.data)

/-- The property the claim states: a parse result, when present, is a
bounds-checked time of day. -/
def timeInBounds : Option TimeHM → Bool
  | none => true
  | some t => decide (t.hour ≤ 23) && decide (t.minute ≤ 59)

theorem charDigit_le (c : Char) (d : Nat) (h : charDigit? c = some d) : d ≤ 9 := by
  unfold charDigit? at h
  split_ifs at h
  all_goals first
    | exact Option.noConfusion h
    | (injection h with h2; omega)

theorem parseMinuteTail_bounds (hh : Nat) (cs : List Char) (t : TimeHM)
    (h : parseMinuteTail hh cs = some t) : t.hour = hh ∧ t.minute ≤ 59 := by
  match cs with
  | [] => exact Option.noConfusion h
  | [c] =>
    simp only [parseMinuteTail, Option.map_eq_some'] at h
    obtain ⟨d, hd, ht⟩ := h
    have hle := charDigit_le c d hd
    cases ht
    refine ⟨rfl, ?_⟩
    show d ≤ 59
    omega
  | c1 :: c2 :: tail =>
    unfold parseMinuteTail at h
    cases h1 : charDigit? c1 with
    | none => simp [h1] at h
    | some d1 =>
      cases h2 : charDigit? c2 with
      | none => simp [h1, h2] at h
      | some d2 =>
        have b1 := charDigit_le c1 d1 h1
        have b2 := charDigit_le c2 d2 h2
        simp only [h1, h2] at h
        split at h
        · split at h
          · injection h with h3
            cases h3
            refine ⟨rfl, ?_⟩
            show d1 * 10 + d2 ≤ 59
            omega
          · exact Option.noConfusion h
        · exact Option.noConfusion h

theorem strptimeTwoDigit_bounds (c1 c2 : Char) (rest2 : List Char) (t : TimeHM)
    (h : strptimeTwoDigit c1 c2 rest2 = some t) : t.hour ≤ 23 ∧ t.minute ≤ 59 := by
  unfold strptimeTwoDigit at h
  cases h1 : charDigit? c1 with
  | none => simp [h1] at h
  | some d1 =>
    cases h2 : charDigit? c2 with
    | none => simp [h1, h2] at h
    | some d2 =>
      simp only [h1, h2] at h
      split at h
      · have hb := parseMinuteTail_bounds _ _ _ h
        rename_i hle
        exact ⟨by omega, hb.2⟩
      · exact Option.noConfusion h

theorem strptimeAfterTwo_bounds (c1 c2 : Char) (rest : List Char) (t : TimeHM)
    (h : strptimeAfterTwo c1 c2 rest = some t) : t.hour ≤ 23 ∧ t.minute ≤ 59 := by
  cases rest with
  | nil => exact Option.noConfusion h
  | cons c3 rest2 =>
    simp only [strptimeAfterTwo] at h
    split at h
    · exact strptimeTwoDigit_bounds c1 c2 rest2 t h
    · exact Option.noConfusion h

theorem strptimeHM_bounds (cs : List Char) (t : TimeHM)
    (h : strptimeHM cs = some t) : t.hour ≤ 23 ∧ t.minute ≤ 59 := by
  match cs with
  | [] => exact Option.noConfusion h
  | [c] => exact Option.noConfusion h
  | c1 :: c2 :: rest =>
    simp only [strptimeHM] at h
    split at h
    · rw [Option.bind_eq_some'] at h
      obtain ⟨d, hd, hp⟩ := h
      have hd9 := charDigit_le c1 d hd
      have hb := parseMinuteTail_bounds d rest t hp
      exact ⟨by omega, hb.2⟩
    · exact strptimeAfterTwo_bounds c1 c2 rest t h

theorem parse_time_string_bounds (s : String) :
    timeInBounds (parse_time_string s) = true := by
  unfold parse_time_string
  split
  · rfl
  · cases hs : strptimeHM (stripChars s.data) with
    | some t =>
      have hb := strptimeHM_bounds _ _ hs
      simp [timeInBounds, hb.1, hb.2]
    | none =>
      simp only []
      cases hf : fallbackHM (stripChars s.data) with
      | none => simp [timeInBounds]
      | some p =>
        obtain ⟨h, m⟩ := p
        by_cases hb : h ≤ 23 ∧ m ≤ 59
        · simp [hb, timeInBounds, hb.1, hb.2]
        · simp [hb, timeInBounds]

theorem parse_time_string_legacy_bounds (s : String) :
    timeInBounds (parse_time_string_legacy s) = true := by
  unfold parse_time_string_legacy
  cases hs : strptimeHM (stripChars s.data) with
  | some t =>
    have hb := strptimeHM_bounds _ _ hs
    simp [timeInBounds, hb.1, hb.2]
  | none => simp [timeInBounds]

/-- Claim C9: parse_time_string is total and bounds-checked — for every
input string it yields either a time with hour at most 23 and minute at
most 59, or None, and never raises (the embedding has no exception
outcome); in particular the out-of-range inputs 25:00 and 12:75 yield
None.  Both the utils/helpers.py version and the legacy notion_utils.py
version satisfy this. -/
theorem theorem_C9_parse_time_total (s : String) :
    timeInBounds (parse_time_string s) = true ∧
    timeInBounds (parse_time_string_legacy s) = true ∧
    parse_time_string "25:00" = none ∧
    parse_time_string "12:75" = none :=
  ⟨parse_time_string_bounds s, parse_time_string_legacy_bounds s,
    by decide, by decide⟩

/-! ## NotionService._request (services/notion_service.py lines 65-134)

The retry loop.  Key facts of the source, mirrored below:
- services/notion_service.py never imports the random module, yet the
  backoff delay on every retry branch is
  base_delay * (2 ** attempt) + random.uniform(0, 1); evaluating it
  raises NameError;
- a NameError raised inside the try block (the HTTP-status retry branch at
  line 100) and the two explicit raise NotionAPIError statements inside
  the try block (lines 85 and 107) are all caught by that same try
  statement's catch-all except Exception clause at line 129, which raises
  NotionAPIError(500, "internal_client_error") instead;
- inside the aiohttp.ClientError and asyncio.TimeoutError handlers the
  same NameError (lines 113 and 123) is not caught by anything and
  propagates to the caller;
- the raise NotionAPIError(500, "max_retries_exceeded") at line 134 runs
  only if the for loop finishes all iterations without returning or
  raising. -/

/-- What one attempt of the HTTP request would observe, were it made. -/
inductive AttemptEvent where
  | success (body : Nat)
  | successBadJson (status : Nat)
  | httpError (status : Nat) (code : String)
  | connError
  | timeoutError
deriving Repr, DecidableEq

/-- An exception escaping _request to the caller. -/
inductive PyError where
  | nameError
  | apiError (status : Nat) (code : String)
deriving Repr, DecidableEq

/-- Result of _request: a parsed body, or an exception raised to the
caller. -/
inductive RequestOutcome where
  | ok (body : Nat)
  | exc (e : PyError)
deriving Repr, DecidableEq

/-- What one iteration of the for loop does.  again models the continue
statement that moves to the next attempt after the backoff sleep. -/
inductive StepResult where
  | done (body : Nat)
  | err (e : PyError)
  | again
deriving Repr, DecidableEq

def RETRY_ATTEMPTS : Nat := 3

def transientStatus (s : Nat) : Bool :=
  s = 429 || s = 500 || s = 503 || s = 504

/-- One iteration of the retry loop of _request, for the given zero-based
attempt number.  No branch ever yields again: the two branches that were
written to continue (transient HTTP status at line 99-103, and the
connection/timeout handlers at lines 112-116 and 122-126) first evaluate
the backoff delay, whose random.uniform call raises NameError. -/
def attemptStep (ev : AttemptEvent) (attempt : Nat) : StepResult :=
  match ev with
  | .success body => .done body
  | .successBadJson _ =>
    -- raise NotionAPIError(status, "invalid_json") inside the try block,
    -- rewrapped by the catch-all into internal_client_error
    .err (.apiError 500 "internal_client_error")
  | .httpError s _ =>
    if transientStatus s ∧ attempt < RETRY_ATTEMPTS - 1 then
      -- delay = base * 2 ** attempt + random.uniform(0, 1): NameError,
      -- caught by the catch-all, which raises internal_client_error
      .err (.apiError 500 "internal_client_error")
    else
      -- raise NotionAPIError(s, code) inside the try block: also caught
      -- by the catch-all and rewrapped into internal_client_error
      .err (.apiError 500 "internal_client_error")
  | .connError =>
    if attempt < RETRY_ATTEMPTS - 1 then
      -- NameError inside the except aiohttp.ClientError handler: uncaught
      .err .nameError
    else .err (.apiError 503 "connection_error")
  | .timeoutError =>
    if attempt < RETRY_ATTEMPTS - 1 then
      -- NameError inside the except asyncio.TimeoutError handler: uncaught
      .err .nameError
    else .err (.apiError 408 "timeout")

/-- The for loop of _request.  fuel is the number of remaining
iterations; when it reaches zero the loop has completed all its
iterations and line 134 raises
NotionAPIError(500, "max_retries_exceeded").  The first component of the
result is the number of attempts actually made. -/
def requestLoop (events : Nat → AttemptEvent) : Nat → Nat → Nat × RequestOutcome
  | attempt, 0 => (attempt, .exc (.apiError 500 "max_retries_exceeded"))
  | attempt, fuel + 1 =>
    match attemptStep (events attempt) attempt with
    | .done body => (attempt + 1, .ok body)
    | .err e => (attempt + 1, .exc e)
    | .again => requestLoop events (attempt + 1) fuel

/-- NotionService._request as a whole: run the loop from attempt 0 with
RETRY_ATTEMPTS iterations available. -/
def notionRequest (events : Nat → AttemptEvent) : Nat × RequestOutcome :=
  requestLoop events 0 RETRY_ATTEMPTS

/-- Claim C2, settled as a code bug.  The claim says that when every
attempt fails with a transient error the request makes exactly
MAX_ATTEMPTS = 3 attempts with exponential backoff plus jitter, and
exactly 1 attempt on a permanent error.  In the code, random is not an
imported module, so the first transient HTTP failure raises NameError while
computing the delay, the catch-all except Exception rewraps it, and the
call fails after exactly 1 attempt with
NotionAPIError(500, "internal_client_error") — it also never sleeps.
This theorem evaluates the embedded loop at the failing input (every
attempt would return HTTP 429) and at a permanent-error input (HTTP 404):
both make exactly one attempt. -/
theorem theorem_C2_retry_bound_code_bug :
    notionRequest (fun _ => .httpError 429 "rate_limited") =
      (1, .exc (.apiError 500 "internal_client_error")) ∧
    notionRequest (fun _ => .httpError 404 "object_not_found") =
      (1, .exc (.apiError 500 "internal_client_error")) ∧
    notionRequest (fun _ => .connError) = (1, .exc .nameError) ∧
    (1 : Nat) ≠ RETRY_ATTEMPTS := by
  refine ⟨rfl, rfl, rfl, by decide⟩

/-- Claim C8, counterexample.  The claim says that after exhausting all
retries on transient errors the client raises an error whose code is
max_retries_exceeded.  On the input where every attempt would fail with
the transient status 503, the call instead raises
NotionAPIError(500, "internal_client_error") after its first attempt. -/
theorem counterexample_C8_max_retries_code :
    (notionRequest (fun _ => .httpError 503 "service_unavailable")).2 =
      .exc (.apiError 500 "internal_client_error") ∧
    (notionRequest (fun _ => .httpError 503 "service_unavailable")).2 ≠
      .exc (.apiError 500 "max_retries_exceeded") := by
  refine ⟨rfl, by decide⟩

/-- Claim C8 as amended.  Whatever the attempts would observe, _request
either returns a parsed body or raises an error to the caller — the
failure is never swallowed — but the error is never
max_retries_exceeded: it is internal_client_error (any HTTP failure,
transient or permanent, and non-JSON success bodies, via the catch-all
handler) or an uncaught NameError (connection errors and timeouts, whose
retry branches evaluate the unimported random module).  The
max_retries_exceeded raise after the loop is unreachable. -/
theorem notionRequest_first_step (events : Nat → AttemptEvent) :
    notionRequest events =
      match attemptStep (events 0) 0 with
      | .done body => (1, .ok body)
      | .err e => (1, .exc e)
      | .again => requestLoop events 1 2 := rfl

theorem theorem_C8_error_surfaced_amended (events : Nat → AttemptEvent) :
    (∃ body, (notionRequest events).2 = .ok body) ∨
    ((notionRequest events).2 = .exc (.apiError 500 "internal_client_error") ∨
     (notionRequest events).2 = .exc .nameError) := by
  rw [notionRequest_first_step events]
  cases hev : events 0 with
  | success body =>
    exact Or.inl ⟨body, by simp [attemptStep]⟩
  | successBadJson s =>
    exact Or.inr (Or.inl (by simp [attemptStep]))
  | httpError s c =>
    exact Or.inr (Or.inl (by simp [attemptStep, ite_self]))
  | connError =>
    exact Or.inr (Or.inr (by simp [attemptStep, RETRY_ATTEMPTS]))
  | timeoutError =>
    exact Or.inr (Or.inr (by simp [attemptStep, RETRY_ATTEMPTS]))

/-! ## The remote task store, query filters and pagination
(services/notion_service.py, ToDo methods) -/

/-- A task record of the Notion todo database, with the properties the
source reads and writes: 완료 여부 (checkbox), 반복 (select), 요일
(multi_select), 날짜 (date, a YYYY-MM-DD string), 구체적인 시간
(rich_text plain text), 시간대 (select), 마지막 리마인드 (date, kept
here as minutes since the epoch).  Absent property values are none. -/
structure NotionTask where
  id : String
  completed : Bool
  repeatOpt : Option String
  weekdays : List String
  dueDate : Option String
  specificTime : Option String
  timeblock : Option String
  lastReminded : Option Nat
deriving Repr, DecidableEq

/-- The boolean predicate trees the source sends as query filters.  The
source builds and / or nodes as JSON arrays; the arrays appearing in the
code have two or three members, embedded here as nested binary nodes. -/
inductive NotionFilter where
  | fAnd (a b : NotionFilter)
  | fOr (a b : NotionFilter)
  | checkboxEquals (prop : String) (val : Bool)
  | selectEquals (prop : String) (val : String)
  | selectIsEmpty (prop : String)
  | multiSelectContains (prop : String) (val : String)
  | dateEquals (prop : String) (val : String)
deriving Repr, DecidableEq

def getCheckbox (t : NotionTask) (prop : String) : Bool :=
  if prop = "완료 여부" then t.completed else false

def getSelect (t : NotionTask) (prop : String) : Option String :=
  if prop = "반복" then t.repeatOpt
  else if prop = "시간대" then t.timeblock
  else none

def getMultiSelect (t : NotionTask) (prop : String) : List String :=
  if prop = "요일" then t.weekdays else []

def getDate (t : NotionTask) (prop : String) : Option String :=
  if prop = "날짜" then t.dueDate else none

/-- Notion server-side filter semantics on one task record. -/
def evalFilter (t : NotionTask) : NotionFilter → Bool
  | .fAnd a b => evalFilter t a && evalFilter t b
  | .fOr a b => evalFilter t a || evalFilter t b
  | .checkboxEquals p v => getCheckbox t p == v
  | .selectEquals p v => getSelect t p == some v
  | .selectIsEmpty p => (getSelect t p).isNone
  | .multiSelectContains p v => (getMultiSelect t p).contains v
  | .dateEquals p v => getDate t p == some v

/-- The filter built by NotionService.fetch_pending_todos (lines
500-526): completed false and (repeat 매일, or repeat 매주 with 요일
containing the current weekday, or repeat empty with 날짜 equal to the
current date). -/
def pendingFilter (todayWeekday todayDate : String) : NotionFilter :=
  .fAnd (.checkboxEquals "완료 여부" false)
    (.fOr (.selectEquals "반복" "매일")
      (.fOr
        (.fAnd (.selectEquals "반복" "매주")
          (.multiSelectContains "요일" todayWeekday))
        (.fAnd (.selectIsEmpty "반복")
          (.dateEquals "날짜" todayDate))))

/-- The predicate the claim states, written from its words: completed
false, and daily, or weekly with the current weekday in the weekday set,
or non-recurring and due today. -/
def claimPendingPred (todayWeekday todayDate : String) (t : NotionTask) : Bool :=
  !t.completed &&
    ((t.repeatOpt == some "매일") ||
     ((t.repeatOpt == some "매주") && t.weekdays.contains todayWeekday) ||
     (t.repeatOpt.isNone && (t.dueDate == some todayDate)))

/-- The pagination while loop shared by fetch_pending_todos (lines
530-543) and reset_daily_todos (lines 604-615): query, extend the
accumulator with results, follow next_cursor while has_more.  The server
serves the matched records in chunks: the query at cursor i returns
results chunks[i] (or no results past the end), has_more exactly when a
chunk remains after i, and then next_cursor i + 1.  The fuel argument
bounds the iterations; one more than the number of chunks always
suffices. -/
def collectFrom (chunks : List (List NotionTask)) : Nat → Nat → List NotionTask
  | _, 0 => []
  | i, fuel + 1 =>
    if i + 1 < chunks.length then chunks.getD i [] ++ collectFrom chunks (i + 1) fuel
    else chunks.getD i []

/-- NotionService.fetch_pending_todos, lines 488-550: run the paginated
query and return the flattened list.  The server serves the filtered
database in the given chunks. -/
def fetch_pending_todos (chunks : List (List NotionTask)) : List NotionTask :=
  collectFrom chunks 0 (chunks.length + 1)

theorem collectFrom_flatten (chunks : List (List NotionTask)) :
    ∀ (fuel i : Nat), chunks.length ≤ i + fuel →
      collectFrom chunks i fuel = (chunks.drop i).flatten := by
  intro fuel
  induction fuel with
  | zero =>
    intro i hi
    have hnil : chunks.drop i = [] := List.drop_eq_nil_of_le (by omega)
    simp [collectFrom, hnil]
  | succ fuel ih =>
    intro i hi
    by_cases hlt : i + 1 < chunks.length
    · have hi2 : i < chunks.length := by omega
      simp only [collectFrom, if_pos hlt]
      rw [ih (i + 1) (by omega), List.getD_eq_getElem chunks [] hi2,
        List.drop_eq_getElem_cons hi2, List.flatten_cons]
    · simp only [collectFrom, if_neg hlt]
      by_cases hi2 : i < chunks.length
      · have hnil : chunks.drop (i + 1) = [] := List.drop_eq_nil_of_le (by omega)
        rw [List.getD_eq_getElem chunks [] hi2, List.drop_eq_getElem_cons hi2,
          List.flatten_cons, hnil]
        simp
      · have hnil : chunks.drop i = [] := List.drop_eq_nil_of_le (by omega)
        rw [List.getD_eq_default chunks [] (by omega), hnil]
        simp

theorem getCheckbox_done (t : NotionTask) : getCheckbox t "완료 여부" = t.completed := by
  simp [getCheckbox]

theorem getSelect_repeat (t : NotionTask) : getSelect t "반복" = t.repeatOpt := by
  simp [getSelect]

theorem getMultiSelect_day (t : NotionTask) : getMultiSelect t "요일" = t.weekdays := by
  simp [getMultiSelect]

theorem getDate_date (t : NotionTask) : getDate t "날짜" = t.dueDate := by
  simp [getDate]

theorem evalFilter_pending (wd dd : String) (t : NotionTask) :
    evalFilter t (pendingFilter wd dd) = claimPendingPred wd dd t := by
  simp only [pendingFilter, evalFilter, claimPendingPred, getCheckbox_done,
    getSelect_repeat, getMultiSelect_day, getDate_date]
  cases t.completed <;> simp [Bool.or_assoc]

/-- Claim C3: when the store serves, page by page, exactly the records
matching the filter that fetch_pending_todos sends, the flattened result
is exactly the tasks with completed false that are daily, or weekly with
the current weekday in their weekday set, or non-recurring and due today;
pagination is followed until exhausted. -/
theorem theorem_C3_fetch_pending (db : List NotionTask) (wd dd : String)
    (chunks : List (List NotionTask))
    (hserver : chunks.flatten = db.filter fun t => evalFilter t (pendingFilter wd dd)) :
    fetch_pending_todos chunks = db.filter (claimPendingPred wd dd) := by
  unfold fetch_pending_todos
  rw [collectFrom_flatten chunks (chunks.length + 1) 0 (by omega)]
  simp only [List.drop_zero]
  rw [hserver]
  exact List.filter_congr fun t _ => evalFilter_pending wd dd t

/-- Witness for C3: a concrete database of four tasks and a two-page
serving of the three that match. -/
theorem theorem_C3_fetch_pending_witness :
    fetch_pending_todos
        [[⟨"a", false, some "매일", [], none, none, none, none⟩],
         [⟨"b", false, some "매주", ["Mon"], none, none, none, none⟩,
          ⟨"d", false, none, [], some "2024-01-10", none, none, none⟩]] =
      List.filter (claimPendingPred "Mon" "2024-01-10")
        [⟨"a", false, some "매일", [], none, none, none, none⟩,
         ⟨"b", false, some "매주", ["Mon"], none, none, none, none⟩,
         ⟨"c", true, some "매일", [], none, none, none, none⟩,
         ⟨"d", false, none, [], some "2024-01-10", none, none, none⟩] :=
  theorem_C3_fetch_pending
    [⟨"a", false, some "매일", [], none, none, none, none⟩,
     ⟨"b", false, some "매주", ["Mon"], none, none, none, none⟩,
     ⟨"c", true, some "매일", [], none, none, none, none⟩,
     ⟨"d", false, none, [], some "2024-01-10", none, none, none⟩]
    "Mon" "2024-01-10"
    [[⟨"a", false, some "매일", [], none, none, none, none⟩],
     [⟨"b", false, some "매주", ["Mon"], none, none, none, none⟩,
      ⟨"d", false, none, [], some "2024-01-10", none, none, none⟩]]
    (by decide)

/-! ## NotionService.update_task_completion (lines 552-568) -/

/-- The PATCH pages/page_id request with properties 완료 여부 set:
server-side effect on the store.  Only the checkbox property of the
addressed page changes. -/
def applyCompletion (db : List NotionTask) (pageId : String) (isDone : Bool) :
    List NotionTask :=
  db.map fun t => if t.id = pageId then { t with completed := isDone } else t

/-- NotionService.update_task_completion: a falsy page_id returns False
without a request; a NotionAPIError from the request is caught and False
is returned (the store is unchanged); otherwise the checkbox is written
and True returned.  requestFails says whether the remote request would
fail for this call. -/
def update_task_completion (db : List NotionTask) (pageId : String) (isDone : Bool)
    (requestFails : Bool) : List NotionTask × Bool :=
  if pageId = "" then (db, false)
  else if requestFails then (db, false)
  else (applyCompletion db pageId isDone, true)

theorem applyCompletion_idem (db : List NotionTask) (pageId : String) (isDone : Bool) :
    applyCompletion (applyCompletion db pageId isDone) pageId isDone =
      applyCompletion db pageId isDone := by
  unfold applyCompletion
  rw [List.map_map]
  refine List.map_congr_left fun t _ => ?_
  by_cases ht : t.id = pageId
  · simp [Function.comp, ht]
  · simp [Function.comp, ht]

/-- Claim C5: mark_complete is idempotent.  Unconditionally, repeating
update_task_completion with the same value leaves the stored state of the
first call unchanged, and when the page id is nonempty and the request
succeeds (in particular, Notion accepts setting a checkbox to the value
it already has), both calls return True; the embedding has no exception
outcome because the source catches NotionAPIError and returns False. -/
theorem theorem_C5_mark_complete_idempotent (db : List NotionTask)
    (pageId : String) (isDone : Bool) (hid : pageId ≠ "") :
    (update_task_completion
        (update_task_completion db pageId isDone false).1 pageId isDone false).1 =
      (update_task_completion db pageId isDone false).1 ∧
    (update_task_completion db pageId isDone false).2 = true ∧
    (update_task_completion
        (update_task_completion db pageId isDone false).1 pageId isDone false).2 = true := by
  simp [update_task_completion, hid, applyCompletion_idem]

/-- Witness for C5 at a concrete one-task store. -/
theorem theorem_C5_mark_complete_idempotent_witness :
    (update_task_completion
        (update_task_completion
          [⟨"p1", false, none, [], none, none, none, none⟩] "p1" true false).1
        "p1" true false).1 =
      (update_task_completion
        [⟨"p1", false, none, [], none, none, none, none⟩] "p1" true false).1 ∧
    (update_task_completion
        [⟨"p1", false, none, [], none, none, none, none⟩] "p1" true false).2 = true ∧
    (update_task_completion
        (update_task_completion
          [⟨"p1", false, none, [], none, none, none, none⟩] "p1" true false).1
        "p1" true false).2 = true :=
  theorem_C5_mark_complete_idempotent
    [⟨"p1", false, none, [], none, none, none, none⟩] "p1" true (by decide)

/-! ## NotionService.reset_daily_todos (lines 570-636) -/

/-- The filter built by reset_daily_todos (lines 585-600): completed true
and (repeat 매일, or repeat 매주 with 요일 containing the current
weekday).  There is no branch for empty repeat: one-off tasks are never
queried. -/
def resetFilter (todayWeekday : String) : NotionFilter :=
  .fAnd (.checkboxEquals "완료 여부" true)
    (.fOr (.selectEquals "반복" "매일")
      (.fAnd (.selectEquals "반복" "매주")
        (.multiSelectContains "요일" todayWeekday)))

/-- The predicate the claim states for reset eligibility: currently
completed, and daily or weekly with the current weekday in the set. -/
def claimResetPred (todayWeekday : String) (t : NotionTask) : Bool :=
  t.completed &&
    ((t.repeatOpt == some "매일") ||
     ((t.repeatOpt == some "매주") && t.weekdays.contains todayWeekday))

theorem evalFilter_reset (wd : String) (t : NotionTask) :
    evalFilter t (resetFilter wd) = claimResetPred wd t := by
  simp only [resetFilter, evalFilter, claimResetPred, getCheckbox_done,
    getSelect_repeat, getMultiSelect_day]
  cases t.completed <;> simp

/-- The per-item updates of reset_daily_todos: one
update_task_completion(page_id, False) per queried page, gathered with
return_exceptions=True, so one failing item leaves the others untouched;
the second component counts the True results (the reset_count the source
logs). -/
def applyResets (db : List NotionTask) :
    List String → (String → Bool) → List NotionTask × Nat
  | [], _ => (db, 0)
  | pid :: rest, fails =>
    let r := update_task_completion db pid false (fails pid)
    let r2 := applyResets r.1 rest fails
    (r2.1, (if r.2 then 1 else 0) + r2.2)

/-- NotionService.reset_daily_todos: run the paginated query for the
reset filter, then update every returned page with a truthy id to
completed false, tolerating per-item failures. -/
def reset_daily_todos (db : List NotionTask) (_todayWeekday : String)
    (chunks : List (List NotionTask)) (itemFails : String → Bool) :
    List NotionTask × Nat :=
  applyResets db
    (((collectFrom chunks 0 (chunks.length + 1)).map fun t => t.id).filter
      fun pid => !(pid == ""))
    itemFails

theorem applyResets_state (fails : String → Bool) :
    ∀ (ids : List String) (db : List NotionTask),
      (applyResets db ids fails).1 =
        db.map fun t =>
          if (ids.filter fun pid => !(pid == "") && !(fails pid)).contains t.id
          then { t with completed := false } else t := by
  intro ids
  induction ids with
  | nil =>
    intro db
    simp [applyResets]
  | cons pid rest ih =>
    intro db
    show (applyResets
        (update_task_completion db pid false (fails pid)).1 rest fails).1 = _
    rw [ih]
    by_cases hskip : pid = "" ∨ fails pid = true
    · have hfc : (!(pid == "") && !(fails pid)) = false := by
        rcases hskip with h | h
        · simp [h]
        · simp [h]
      have hupd : (update_task_completion db pid false (fails pid)).1 = db := by
        unfold update_task_completion
        rcases hskip with h | h
        · simp [h]
        · by_cases h2 : pid = "" <;> simp [h, h2]
      rw [hupd, List.filter_cons, hfc]
      simp
    · push_neg at hskip
      obtain ⟨hpid, hfail⟩ := hskip
      have hfail2 : fails pid = false := by
        revert hfail
        cases fails pid <;> simp
      have hupd : (update_task_completion db pid false (fails pid)).1 =
          applyCompletion db pid false := by
        unfold update_task_completion
        simp [hpid, hfail2]
      have hfilter : List.filter (fun p => !(p == "") && !(fails p)) (pid :: rest) =
          pid :: List.filter (fun p => !(p == "") && !(fails p)) rest := by
        simp [List.filter_cons, hpid, hfail2]
      rw [hupd, hfilter]
      unfold applyCompletion
      rw [List.map_map]
      refine List.map_congr_left fun t _ => ?_
      by_cases ht : t.id = pid
      · simp [Function.comp, ht, List.contains_cons]
      · simp [Function.comp, ht, List.contains_cons]

/-- Claim C6: reset_recurring flips completed to false exactly on the
tasks that are currently completed and whose recurrence matches today
(daily, or weekly with the current weekday in their set) and whose
per-item update succeeds; every other task — in particular every one-off
task — is returned unchanged, no other field is modified, and one failing
item does not prevent the rest from being reset. -/
theorem theorem_C6_reset_recurring (db : List NotionTask) (wd : String)
    (chunks : List (List NotionTask)) (itemFails : String → Bool)
    (hserver : chunks.flatten = db.filter fun t => evalFilter t (resetFilter wd))
    (hnodup : (db.map fun t => t.id).Nodup)
    (hids : ∀ t ∈ db, t.id ≠ "") :
    (reset_daily_todos db wd chunks itemFails).1 =
      db.map fun t =>
        if claimResetPred wd t && !(itemFails t.id)
        then { t with completed := false } else t := by
  unfold reset_daily_todos
  rw [collectFrom_flatten chunks (chunks.length + 1) 0 (by omega)]
  simp only [List.drop_zero]
  rw [hserver, applyResets_state]
  refine List.map_congr_left fun t htdb => ?_
  have hkey :
      ((((db.filter fun u => evalFilter u (resetFilter wd)).map fun u => u.id).filter
          (fun pid => !(pid == ""))).filter
        (fun pid => !(pid == "") && !(itemFails pid))).contains t.id =
      (claimResetPred wd t && !(itemFails t.id)) := by
    rw [Bool.eq_iff_iff]
    rw [List.elem_iff]
    constructor
    · intro hin
      rw [List.mem_filter] at hin
      obtain ⟨hin1, hcond⟩ := hin
      rw [List.mem_filter] at hin1
      obtain ⟨hin2, _⟩ := hin1
      rw [List.mem_map] at hin2
      obtain ⟨u, humem, huid⟩ := hin2
      rw [List.mem_filter] at humem
      obtain ⟨humemdb, hueval⟩ := humem
      have hut : u = t :=
        List.inj_on_of_nodup_map hnodup humemdb htdb huid
      subst hut
      rw [evalFilter_reset] at hueval
      simp only [Bool.and_eq_true, Bool.not_eq_true'] at hcond ⊢
      exact ⟨hueval, hcond.2⟩
    · intro hok
      simp only [Bool.and_eq_true, Bool.not_eq_true'] at hok
      obtain ⟨hpred, hfail⟩ := hok
      have hidne : t.id ≠ "" := hids t htdb
      rw [List.mem_filter]
      constructor
      · rw [List.mem_filter]
        constructor
        · rw [List.mem_map]
          refine ⟨t, ?_, rfl⟩
          rw [List.mem_filter]
          exact ⟨htdb, by rw [evalFilter_reset]; exact hpred⟩
        · simp [hidne]
      · simp [hidne, hfail]
  rw [hkey]

/-- Witness for C6: a store where a completed daily task d1 resets, a
completed daily task d2 whose update fails stays completed, a completed
one-off task stays completed, and an incomplete weekly task is untouched;
served in one page. -/
theorem theorem_C6_reset_recurring_witness :
    (reset_daily_todos
        [⟨"d1", true, some "매일", [], none, none, none, none⟩,
         ⟨"d2", true, some "매일", [], none, none, none, none⟩,
         ⟨"o1", true, none, [], some "2024-01-10", none, none, none⟩,
         ⟨"w1", false, some "매주", ["Mon"], none, none, none, none⟩]
        "Mon"
        [[⟨"d1", true, some "매일", [], none, none, none, none⟩,
          ⟨"d2", true, some "매일", [], none, none, none, none⟩]]
        (fun pid => pid == "d2")).1 =
      List.map
        (fun t =>
          if claimResetPred "Mon" t && !((fun pid => pid == "d2") t.id)
          then { t with completed := false } else t)
        [⟨"d1", true, some "매일", [], none, none, none, none⟩,
         ⟨"d2", true, some "매일", [], none, none, none, none⟩,
         ⟨"o1", true, none, [], some "2024-01-10", none, none, none⟩,
         ⟨"w1", false, some "매주", ["Mon"], none, none, none, none⟩] :=
  theorem_C6_reset_recurring
    [⟨"d1", true, some "매일", [], none, none, none, none⟩,
     ⟨"d2", true, some "매일", [], none, none, none, none⟩,
     ⟨"o1", true, none, [], some "2024-01-10", none, none, none⟩,
     ⟨"w1", false, some "매주", ["Mon"], none, none, none, none⟩]
    "Mon"
    [[⟨"d1", true, some "매일", [], none, none, none, none⟩,
      ⟨"d2", true, some "매일", [], none, none, none, none⟩]]
    (fun pid => pid == "d2")
    (by decide) (by decide) (by decide)

/-! ## The reminder passes (tasks/scheduler.py lines 149-292)

Two facts of the source decide claim C1:
- tasks/scheduler.py imports only datetime, time and date from datetime;
  timedelta is not imported, so whenever 마지막 리마인드 is present the
  cooldown comparison (now - last_reminded_at) < timedelta(hours=3) at
  lines 194 and 266 raises NameError, which the job-level except clause
  catches: the whole pass aborts there (earlier sends of the same pass
  stand);
- NotionService defines no update_task_last_reminded_at method, yet both
  passes call bot.notion_service.update_task_last_reminded_at after
  sending (lines 204 and 286).  The attribute lookup raises
  AttributeError: in the specific-time pass it is caught by the inner
  per-task except and the loop continues; in the timeblock pass it is
  caught by the job-level except after the summary was already sent.
  Either way 마지막 리마인드 is never written, so consecutive passes see
  an unchanged store. -/

def REMINDER_COOLDOWN_HOURS : Nat := 3

def ORDERED_TIMEBLOCKS : List String := ["아침", "점심", "저녁", "밤"]

/-- _job_check_reminders (lines 153-212) on the todos fetch_pending_todos
returned, at the wall-clock minute `now` (now % 1440 is the time of day;
the source compares datetime.time values, modeled at minute granularity).
Result: the page ids a reminder was sent for, in order, and true when the
loop finished normally (false: aborted by the NameError on timedelta at a
task whose 마지막 리마인드 is present).  The store is not part of the
result because the pass can never modify it: the
update_task_last_reminded_at call after each send raises AttributeError,
caught by the inner except. -/
def jobCheckReminders (now : Nat) : List NotionTask → List String × Bool
  | [] => ([], true)
  | t :: rest =>
    if t.id = "" then jobCheckReminders now rest
    else
      match t.specificTime with
      | none => jobCheckReminders now rest
      | some s =>
        if (stripChars s.data).isEmpty then jobCheckReminders now rest
        else
          match parse_time_string s with
          | none => jobCheckReminders now rest
          | some tm =>
            if tm.toMinutes ≤ now % 1440 then
              match t.lastReminded with
              | some _ => ([], false)
              | none =>
                let r := jobCheckReminders now rest
                (t.id :: r.1, r.2)
            else jobCheckReminders now rest

/-- The collection loop of _job_send_timeblock_reminder (lines 241-273):
candidates are todos without a specific time whose 시간대 is among the
relevant blocks.  none: the pass aborted during collection (NameError on
timedelta at a candidate with 마지막 리마인드 present), before anything
was sent. -/
def collectTimeblock (relevant : List String) : List NotionTask → Option (List String)
  | [] => some []
  | t :: rest =>
    if t.id = "" then collectTimeblock relevant rest
    else
      if (match t.specificTime with
          | some s => !(stripChars s.data).isEmpty
          | none => false) then collectTimeblock relevant rest
      else
        match t.timeblock with
        | none => collectTimeblock relevant rest
        | some b =>
          if relevant.contains b then
            match t.lastReminded with
            | some _ => none
            | none => (collectTimeblock relevant rest).map fun l => t.id :: l
          else collectTimeblock relevant rest

/-- _job_send_timeblock_reminder (lines 215-292): an unknown block name
raises ValueError on ORDERED_TIMEBLOCKS.index and returns; otherwise the
blocks up to and including the current one are relevant; when collection
survives and is nonempty, one combined summary is sent for the collected
ids (the subsequent last-reminded updates then fail with AttributeError).
Result: the ids included in the sent summary, or none when nothing was
sent. -/
def jobTimeblockReminder (current : String) (todos : List NotionTask) :
    Option (List String) :=
  match List.findIdx? (fun b => b == current) ORDERED_TIMEBLOCKS with
  | none => none
  | some i =>
    match collectTimeblock (ORDERED_TIMEBLOCKS.take (i + 1)) todos with
    | none => none
    | some [] => none
    | some ids => some ids

/-- Claim C1, settled as a code bug.  The task t1 is pending with
구체적인 시간 09:00 and no recorded 마지막 리마인드.  The specific-time
pass runs every 5 minutes; at 09:00 (minute 540) it sends a reminder for
t1, fails to record the send (no update_task_last_reminded_at method),
and at 09:05 (minute 545) sends again — 5 minutes apart, far below the
3-hour cooldown the claim states.  Moreover, had 마지막 리마인드 been
present (written by anything else), the pass would abort with NameError
instead of comparing the cooldown, shown here for the specific-time pass
and for the cumulative pass, where one such candidate suppresses the
whole batch. -/
theorem theorem_C1_cooldown_code_bug :
    jobCheckReminders 540 [⟨"t1", false, some "매일", [], none, some "09:00", none, none⟩] =
      (["t1"], true) ∧
    jobCheckReminders 545 [⟨"t1", false, some "매일", [], none, some "09:00", none, none⟩] =
      (["t1"], true) ∧
    545 - 540 < REMINDER_COOLDOWN_HOURS * 60 ∧
    jobCheckReminders 545
        [⟨"t1", false, some "매일", [], none, some "09:00", none, some 540⟩] =
      ([], false) ∧
    jobTimeblockReminder "점심"
        [⟨"t2", false, some "매일", [], none, none, some "아침", some 540⟩,
         ⟨"t3", false, some "매일", [], none, none, some "아침", none⟩] = none := by
  decide

/-! ## Proactive-outreach window and tick
(tasks/initiate_checker.py lines 27-119, utils/activity_tracker.py) -/

/-- The allowed-hours test of _check_initiate_message_loop (lines 41-48):
a plain half-open range when start <= end, otherwise the wraparound test
hour >= start or hour < end. -/
def isAllowedHour (startH endH hour : Nat) : Bool :=
  if startH ≤ endH then decide (startH ≤ hour ∧ hour < endH)
  else decide (hour ≥ startH ∨ hour < endH)

/-- The legacy src/initiate_checker.py line 26 test, hardcoded:
not (hour >= 11 or hour <= 1) skips, so inside means
hour >= 11 or hour <= 1. -/
def legacyInitiateAllowed (hour : Nat) : Bool :=
  decide (hour ≥ 11 ∨ hour ≤ 1)

/-- Python datetime objects define no __bool__ or __len__, so they are
always truthy; `not last_active_time` on the tracker value is always
False. -/
def datetimeTruthy (_ : Nat) : Bool := true

inductive TickOutcome where
  | stoppedNoTarget
  | skippedWindow
  | skippedUserNotFound
  | skippedNoActivity
  | skippedSmallGap
  | sent (gapMinutes : Int)
deriving Repr, DecidableEq

/-- One tick of _check_initiate_message_loop, decision structure of lines
31-107: no target stops the loop; outside the window skip; user not found
skip; falsy last-active skip (line 68, the branch claim C10 is about);
gap below the minimum skip; otherwise send.  Times are minutes;
minGapHours is compared after converting the gap to hours, equivalently
here gap < minGapHours * 60. -/
def initiateTick (hasTarget : Bool) (startH endH : Nat) (now : Nat)
    (userFound : Bool) (lastActive : Nat) (minGapHours : Nat) : TickOutcome :=
  if !hasTarget then .stoppedNoTarget
  else if !(isAllowedHour startH endH ((now / 60) % 24)) then .skippedWindow
  else if !userFound then .skippedUserNotFound
  else if !(datetimeTruthy lastActive) then .skippedNoActivity
  else if ((now : Int) - (lastActive : Int)) < (minGapHours : Int) * 60 then .skippedSmallGap
  else .sent ((now : Int) - (lastActive : Int))

/-- utils/activity_tracker.py line 9: the module-level timestamp is
initialized to the current time when the module loads (process start). -/
def trackerInit (processStart : Nat) : Nat := processStart

/-- update_last_active (lines 12-17): overwrite with the current time. -/
def update_last_active (nowT : Nat) (_prev : Nat) : Nat := nowT

/-- get_last_active (lines 19-22): return the stored timestamp. -/
def get_last_active (state : Nat) : Nat := state

/-- The tracker state after a sequence of updates since process start. -/
def trackerState (processStart : Nat) (updates : List Nat) : Nat :=
  updates.foldl (fun s u => update_last_active u s) (trackerInit processStart)

/-- Claim C4: the window is half-open [start, end) with wraparound —
when start > end an hour is inside iff hour >= start or hour < end,
otherwise iff start <= hour < end; for start 23 end 1, hours 23 and 0 are
inside and 1 through 22 outside; and the monitor skips the tick whenever
the current hour is outside.  The legacy checker hardcodes the same
convention with start 11, end 2. -/
theorem theorem_C4_window (s e h now lastActive minGap : Nat) (userFound : Bool) :
    (e < s → (isAllowedHour s e h = true ↔ (s ≤ h ∨ h < e))) ∧
    (s ≤ e → (isAllowedHour s e h = true ↔ (s ≤ h ∧ h < e))) ∧
    isAllowedHour 23 1 23 = true ∧
    isAllowedHour 23 1 0 = true ∧
    ((List.range 22).all fun k => !(isAllowedHour 23 1 (k + 1))) = true ∧
    legacyInitiateAllowed h = isAllowedHour 11 2 h ∧
    (isAllowedHour s e ((now / 60) % 24) = false →
      initiateTick true s e now userFound lastActive minGap = .skippedWindow) := by
  refine ⟨?_, ?_, by decide, by decide, by decide, ?_, ?_⟩
  · intro hlt
    rw [isAllowedHour, if_neg (by omega)]
    simp
  · intro hle
    rw [isAllowedHour, if_pos hle]
    simp
  · rw [legacyInitiateAllowed, isAllowedHour, if_neg (by omega)]
    simp only [decide_eq_decide]
    omega
  · intro hw
    simp [initiateTick, hw]

/-- Witness for C4 at concrete inputs: hour 5 is outside the 23-1 window
and the tick at 05:30 with a target configured is skipped on the window
test. -/
theorem theorem_C4_window_witness :
    (isAllowedHour 23 1 5 = true ↔ (23 ≤ 5 ∨ 5 < 1)) ∧
    initiateTick true 23 1 (5 * 60 + 30) true 0 12 = .skippedWindow := by
  refine ⟨(theorem_C4_window 23 1 5 0 0 0 true).1 (by decide), ?_⟩
  exact (theorem_C4_window 23 1 5 (5 * 60 + 30) 0 12 true).2.2.2.2.2.2 (by decide)

theorem trackerState_last (processStart : Nat) :
    ∀ updates : List Nat,
      trackerState processStart updates = updates.getLast?.getD processStart := by
  have hgen : ∀ (updates : List Nat) (z : Nat),
      List.foldl (fun s u => update_last_active u s) z updates =
        updates.getLast?.getD z := by
    intro updates
    induction updates with
    | nil => intro z; rfl
    | cons u us ih =>
      intro z
      show List.foldl (fun s u => update_last_active u s) u us = _
      rw [ih u]
      cases us with
      | nil => rfl
      | cons v vs =>
        rw [List.getLast?_cons_cons]
        cases hlast : (v :: vs).getLast? with
        | none => exact absurd hlast (Option.isSome_iff_ne_none.mp rfl)
        | some x => rfl
  intro updates
  exact hgen updates (trackerInit processStart)

/-- Claim C10: the shared last-active timestamp always holds a value —
it is the process-start time until the first update and the last written
time afterwards — and since datetime values are always truthy, the
monitor's skip-if-no-activity-recorded branch can never be the outcome of
a tick, whatever the configuration, clock and tracker history. -/
theorem theorem_C10_last_active_total (processStart : Nat) (updates : List Nat)
    (hasTarget userFound : Bool) (s e now minGap : Nat) :
    get_last_active (trackerState processStart updates) =
      updates.getLast?.getD processStart ∧
    initiateTick hasTarget s e now userFound
        (get_last_active (trackerState processStart updates)) minGap ≠
      .skippedNoActivity := by
  refine ⟨trackerState_last processStart updates, ?_⟩
  unfold initiateTick datetimeTruthy
  split
  · simp
  · split
    · simp
    · split
      · simp
      · simp only [Bool.not_true, Bool.false_eq_true, if_false]
        split
        · simp
        · simp

/-! ## parse_natural_date_string weekday arithmetic
(utils/helpers.py lines 172-209) -/

/-- dateutil relativedelta with weekday W(-1): move to the latest day at
or before d whose weekday is w.  Days are Int day numbers, day 0 a
Monday, weekday d = d % 7 as in Python date.weekday(). -/
def weekdayBack (d : Int) (w : Nat) : Int := d - ((d - w) % 7)

/-- dateutil relativedelta with plain weekday W: move to the earliest day
at or after d whose weekday is w. -/
def weekdayFwd (d : Int) (w : Nat) : Int := d + (((w : Int) - d) % 7)

inductive WeekQualifier where
  | nextWeek
  | thisWeek
  | plainDay
deriving Repr, DecidableEq

/-- Lines 182-191 of utils/helpers.py: the date resolved for a weekday
name w with a 다음 주 / 이번 주 / bare qualifier.  다음 주 is
ref + relativedelta(weeks=1, weekday=W(-1)): add seven days, then go back
to the nearest w.  The bare case is ref + relativedelta(weekday=W), with
the source's dead guard (the forward adjustment can never land before
ref) kept. -/
def resolveWeekdayDate (refDay : Int) (q : WeekQualifier) (w : Nat) : Int :=
  match q with
  | .nextWeek => weekdayBack (refDay + 7) w
  | .thisWeek => weekdayBack refDay w
  | .plainDay =>
    let temp := weekdayFwd refDay w
    if temp < refDay then weekdayFwd (refDay + 7) w else temp

/-- Line 147: default_time = time(9, 0), applied when no time text
remains. -/
def DEFAULT_TIME : TimeHM := ⟨9, 0⟩

/-- Lines 200-209: combine the resolved date with the time parsed from
the residual text (the external date/time parser on the residual text is
modeled by its result), or the default time when none remains. -/
def parse_natural_weekday (refDay : Int) (q : WeekQualifier) (w : Nat)
    (timePart : Option TimeHM) : Int × TimeHM :=
  (resolveWeekdayDate refDay q w, timePart.getD DEFAULT_TIME)

/-- The date the claim states for a next-week weekday: that weekday in
the week after the reference's week (Monday-based weeks). -/
def mondayOfWeek (d : Int) : Int := d - d % 7

def claimNextWeekday (refDay : Int) (w : Nat) : Int :=
  mondayOfWeek refDay + 7 + w

/-- Claim C7, counterexample.  With a Monday reference (day 0) and target
weekday Wednesday (2) — an occurrence that has not yet passed this week —
the code resolves 다음 주 수요일 to day 2, this week's Wednesday, not day
9, the following week's Wednesday the claim requires; the time part
still parses. -/
theorem counterexample_C7_next_weekday :
    resolveWeekdayDate 0 .nextWeek 2 = 2 ∧
    claimNextWeekday 0 2 = 9 ∧
    resolveWeekdayDate 0 .nextWeek 2 ≠ claimNextWeekday 0 2 ∧
    parse_natural_weekday 0 .nextWeek 2 (some ⟨15, 0⟩) = (2, ⟨15, 0⟩) := by
  decide

/-- Claim C7 as amended.  A next-week weekday resolves to (ref + 7 days)
moved back to the nearest target weekday: that is the following week's
occurrence exactly when the target weekday is at or before the
reference's weekday — in particular next Monday from any Wednesday
reference is the following week's Monday, at 15:00 when the time text
parses to 15:00 — but when this week's occurrence is still ahead it
resolves to this week's occurrence instead.  A bare weekday name resolves
to the nearest occurrence at or after the reference. -/
theorem theorem_C7_next_weekday_amended (refDay : Int) (w : Nat) (hw : w < 7) :
    ((w : Int) ≤ refDay % 7 →
      resolveWeekdayDate refDay .nextWeek w = claimNextWeekday refDay w) ∧
    (refDay % 7 < (w : Int) →
      resolveWeekdayDate refDay .nextWeek w = refDay + ((w : Int) - refDay % 7)) ∧
    (refDay % 7 = 2 →
      parse_natural_weekday refDay .nextWeek 0 (some ⟨15, 0⟩) =
        (claimNextWeekday refDay 0, ⟨15, 0⟩)) ∧
    (refDay ≤ resolveWeekdayDate refDay .plainDay w ∧
     resolveWeekdayDate refDay .plainDay w < refDay + 7 ∧
     resolveWeekdayDate refDay .plainDay w % 7 = w) := by
  refine ⟨?_, ?_, ?_, ?_⟩
  · intro hle
    simp only [resolveWeekdayDate, weekdayBack, claimNextWeekday, mondayOfWeek]
    omega
  · intro hlt
    simp only [resolveWeekdayDate, weekdayBack]
    omega
  · intro h2
    simp only [parse_natural_weekday, resolveWeekdayDate, weekdayBack,
      claimNextWeekday, mondayOfWeek, Option.getD_some, Prod.mk.injEq]
    refine ⟨by omega, trivial⟩
  · simp only [resolveWeekdayDate, weekdayFwd]
    rw [if_neg (by omega)]
    refine ⟨by omega, by omega, by omega⟩

/-- Witness for C7 as amended: day 2 is a Wednesday; next Monday resolves
to day 7, the following week's Monday, at 15:00; from the Monday day 0,
next-week Wednesday stays in the same week; and the bare weekday case at
a concrete input. -/
theorem theorem_C7_next_weekday_amended_witness :
    resolveWeekdayDate 2 .nextWeek 0 = claimNextWeekday 2 0 ∧
    resolveWeekdayDate 0 .nextWeek 2 = 0 + ((2 : Int) - 0 % 7) ∧
    parse_natural_weekday 2 .nextWeek 0 (some ⟨15, 0⟩) =
      (claimNextWeekday 2 0, ⟨15, 0⟩) ∧
    (2 ≤ resolveWeekdayDate 2 .plainDay 4 ∧
     resolveWeekdayDate 2 .plainDay 4 < 2 + 7 ∧
     resolveWeekdayDate 2 .plainDay 4 % 7 = 4) :=
  ⟨(theorem_C7_next_weekday_amended 2 0 (by decide)).1 (by decide),
   (theorem_C7_next_weekday_amended 0 2 (by decide)).2.1 (by decide),
   (theorem_C7_next_weekday_amended 2 0 (by decide)).2.2.1 (by decide),
   (theorem_C7_next_weekday_amended 2 4 (by decide)).2.2.2⟩

end KiyoSpec
